import Mathlib

/-!
# Verification of the Longhorn node admission validator

A shallow embedding of `webhook/resources/node/validator.go` from
`longhorn-manager`: the admission-time validator for Node custom resources.
The validator's three entry points (`Create`, `Update`, `Delete`) are pure
decision functions over the proposed object snapshots plus a set of
read-only external collaborators (settings, the Kubernetes node object,
replica/engine listings, tag validation).  External reads are collected in
an `Env` record; Go maps are embedded as association lists with
exact-string lookup.
-/

namespace LonghornNodeValidator

/-- First-match lookup in an association list, the embedding of a Go map
read `m[k]` (presence-aware form `v, ok := m[k]`). -/
def lookupKey {α : Type} (name : String) : List (String × α) → Option α
  | [] => none
  | (k, v) :: rest => if name = k then some v else lookupKey name rest

/-- Constant `longhorn.DiskTypeBlock`. -/
def DiskTypeBlock : String := "block"

/-- Constant `longhorn.DiskDriverNone` (the empty string: no explicit driver). -/
def DiskDriverNone : String := ""

/-- Constant `longhorn.ConditionStatusTrue`. -/
def ConditionStatusTrue : String := "True"

/-- Constant `longhorn.NodeConditionTypeReady`. -/
def NodeConditionTypeReady : String := "Ready"

/-- Constant `longhorn.NodeConditionReasonKubernetesNodeGone`. -/
def NodeConditionReasonKubernetesNodeGone : String := "KubernetesNodeGone"

/-- Constant `longhorn.NodeConditionReasonManagerPodMissing`. -/
def NodeConditionReasonManagerPodMissing : String := "ManagerPodMissing"

/-- Constant `types.GetLonghornLabelKey(types.DeleteNodeFromLonghorn)`: the uninstall
marker annotation key. -/
def DeleteNodeFromLonghornKey : String := "longhorn.io/delete-node-from-longhorn"

/-- Structure `longhorn.DiskSpec`: the per-disk portion of a node's spec. -/
structure DiskSpec where
  diskType : String
  diskDriver : String
  path : String
  storageReserved : Int
  tags : List String
  allowScheduling : Bool
  evictionRequested : Bool
deriving DecidableEq

/-- Structure `longhorn.DiskStatus`: the fields of the per-disk status this validator
reads. -/
structure DiskStatus where
  storageScheduled : Int
deriving DecidableEq

/-- Structure `longhorn.Condition`: a status condition `(type, status, reason)`. -/
structure Condition where
  ctype : String
  cstatus : String
  reason : String
deriving DecidableEq

/-- Structure `longhorn.NodeSpec`: the fields of a node spec this validator reads. -/
structure NodeSpec where
  name : String
  disks : List (String × DiskSpec)
  allowScheduling : Bool
  evictionRequested : Bool
  instanceManagerCPURequest : Int
  tags : List String
deriving DecidableEq

/-- Structure `longhorn.NodeStatus`: the fields of a node status this validator
reads. -/
structure NodeStatus where
  conditions : List Condition
  diskStatus : List (String × DiskStatus)
deriving DecidableEq

/-- Structure `longhorn.Node`: object metadata (name, annotations, deletion state,
finalizers) together with spec and status. `deletionTimestamp` records
whether the metadata deletion timestamp is set. -/
structure Node where
  name : String
  annotations : List (String × String)
  deletionTimestamp : Bool
  finalizers : List String
  spec : NodeSpec
  status : NodeStatus
deriving DecidableEq

/-- The Kubernetes node object, as read through
`GetKubernetesNodeRO`; only the allocatable CPU is consumed. -/
structure KubeNode where
  allocatableMilliCPU : Int
deriving DecidableEq

/-- Outcome of `n.ds.GetKubernetesNodeRO`: success, a not-found error
(tested by `datastore.ErrorIsNotFound`), or any other error. -/
inductive KubeNodeRead where
  | found (n : KubeNode)
  | notFound (msg : String)
  | readErr (msg : String)
deriving DecidableEq

/-- The external collaborators consumed by the validator, per request:
settings reads, the Kubernetes node read, the CPU-percentage computation
and range validation (`types.ValidateCPUReservationValues`), tag syntax
validation (`util.ValidateTags`, error part), and the replica/engine
listings.  `computePercent req alloc` stands for the floating-point
expression `fmt.Sprintf("%.0f", math.Round(float64(req)/alloc*100.0))`. -/
structure Env where
  v2DataEngine : Except String Bool
  kubeNode : KubeNodeRead
  guaranteedCPUSetting : Except String String
  computePercent : Int → Int → String
  validateCPUReservation : String → Option String
  validateTags : List String → Option String
  replicas : Except String (List String)
  engines : Except String (List String)

/-- Package `werror`: the two webhook rejection categories (`NewInvalidError` and
`NewForbiddenError`). -/
inductive AdmissionError where
  | invalid (msg : String)
  | forbidden (msg : String)
deriving DecidableEq

/-- Outcome of a validator entry point: acceptance (`nil` error),
rejection with a categorized error, or a nil-map-entry dereference
(a Go runtime crash, never a returned value). -/
inductive VResult where
  | ok
  | err (e : AdmissionError)
  | crash
deriving DecidableEq

/-- Chain a pure check producing an optional error in front of the rest of
a rule set: the Go pattern `if cond { return werror.New... }` / fallthrough. -/
def liftOpt : Option AdmissionError → VResult → VResult
  | some e, _ => .err e
  | none, r => r

/-- Modelled from the spec: `common.IsRemovingLonghornFinalizer` (from
`webhook/common`, not under the sources given) — true exactly when the old
object is under deletion, carries the longhorn.io finalizer, and the new
object is the old one with only that finalizer removed. -/
def isRemovingLonghornFinalizer (oldNode newNode : Node) : Bool :=
  oldNode.deletionTimestamp &&
  oldNode.finalizers.contains "longhorn.io" &&
  decide (newNode = { oldNode with finalizers := oldNode.finalizers.erase "longhorn.io" })

/-- The node-level eviction/scheduling conflict tested at
`validator.go:106`: `newNode.Spec.EvictionRequested && newNode.Spec.AllowScheduling`. -/
def nodeEvictionConflict (spec : NodeSpec) : Bool :=
  spec.evictionRequested && spec.allowScheduling

/-- The per-disk eviction/scheduling conflict tested at
`validator.go:154`: `diskSpec.EvictionRequested && diskSpec.AllowScheduling`. -/
def diskEvictionConflict (d : DiskSpec) : Bool :=
  d.evictionRequested && d.allowScheduling

/-- Function `isNodeDiskSpecAndStatusSynced` (`validator.go:211-223`). -/
def isNodeDiskSpecAndStatusSynced (node : Node) : Bool :=
  node.spec.disks.length = node.status.diskStatus.length &&
  node.spec.disks.all fun p => (lookupKey p.1 node.status.diskStatus).isSome

/-- The CPU reservation bound check of `Update` (`validator.go:122-144`).
On a not-found read of the Kubernetes node the failure is logged as a
warning and the whole percentage computation is skipped. -/
def checkCPU (env : Env) (cpuRequest : Int) : Option AdmissionError :=
  if cpuRequest ≠ 0 then
    match env.kubeNode with
    | .readErr msg => some (.invalid msg)
    | .notFound _ => none
    | .found kubeNode =>
      match env.guaranteedCPUSetting with
      | .error msg => some (.invalid msg)
      | .ok settingValue =>
        let pct := if cpuRequest > 0 then
            env.computePercent cpuRequest kubeNode.allocatableMilliCPU
          else settingValue
        match env.validateCPUReservation pct with
        | some msg => some (.invalid msg)
        | none => none
  else none

/-- The per-disk eviction/scheduling loop of `Update`
(`validator.go:153-158`). -/
def checkDiskEviction : List (String × DiskSpec) → Option AdmissionError
  | [] => none
  | (diskName, d) :: rest =>
    if diskEvictionConflict d then
      some (.invalid ("need to disable scheduling on disk " ++ diskName ++
        " for disk eviction, or cancel eviction to enable scheduling on this disk"))
    else checkDiskEviction rest

/-- The per-disk validation loop of `Create` (`validator.go:64-76`):
block-type disks need the v2 data engine, non-block disks may not name a
disk driver. -/
def checkCreateDisks (v2DataEngineEnabled : Bool) : List (String × DiskSpec) → Option AdmissionError
  | [] => none
  | (name, disk) :: rest =>
    if !v2DataEngineEnabled && disk.diskType = DiskTypeBlock then
      some (.invalid ("disk " ++ name ++ " type " ++ disk.diskType ++
        " is not supported since v2 data engine is disabled"))
    else if disk.diskType ≠ DiskTypeBlock && disk.diskDriver ≠ DiskDriverNone then
      some (.invalid ("disk " ++ name ++ " type " ++ disk.diskType ++
        " is not supported to specify disk driver"))
    else checkCreateDisks v2DataEngineEnabled rest

/-- The per-disk validation loop of `Update` (`validator.go:167-187`):
storage reservation, tag syntax, block type needs the v2 engine, non-block
disks may not name a disk driver. -/
def checkUpdateDisks (validTags : List String → Option String) (v2DataEngineEnabled : Bool)
    (nodeName : String) : List (String × DiskSpec) → Option AdmissionError
  | [] => none
  | (name, disk) :: rest =>
    if disk.storageReserved < 0 then
      some (.invalid ("update disk on node " ++ nodeName ++
        " error: The storageReserved setting of disk " ++ name ++ "(" ++ disk.path ++
        ") is not valid, should be positive and no more than storageMaximum and storageAvailable"))
    else
      match validTags disk.tags with
      | some msg => some (.invalid msg)
      | none =>
        if !v2DataEngineEnabled && disk.diskType = DiskTypeBlock then
          some (.invalid ("update disk on node " ++ nodeName ++ " error: The disk " ++
            name ++ "(" ++ disk.path ++ ") is a block device, but the SPDK feature is not enabled"))
        else if disk.diskType ≠ DiskTypeBlock && disk.diskDriver ≠ DiskDriverNone then
          some (.invalid ("disk " ++ name ++ " type " ++ disk.diskType ++
            " is not supported to specify disk driver"))
        else checkUpdateDisks validTags v2DataEngineEnabled nodeName rest

/-- The disk-removal loop of `Update` (`validator.go:190-197`): a disk in
the old spec but not the new one must be unschedulable and have zero
scheduled storage.  The Go condition
`disk.AllowScheduling || oldNode.Status.DiskStatus[name].StorageScheduled != 0`
short-circuits, so the status map is dereferenced only when
`AllowScheduling` is false; an absent entry there is a nil dereference
(`crash`). -/
def checkDeleteDisks (newDisks : List (String × DiskSpec))
    (diskStatus : List (String × DiskStatus)) : List (String × DiskSpec) → VResult
  | [] => .ok
  | (name, disk) :: rest =>
    match lookupKey name newDisks with
    | some _ => checkDeleteDisks newDisks diskStatus rest
    | none =>
      if disk.allowScheduling then
        .err (.invalid ("Delete Disk on node " ++ name ++
          " error: Please disable the disk " ++ disk.path ++
          " and remove all replicas and backing images first "))
      else
        match lookupKey name diskStatus with
        | none => .crash
        | some st =>
          if st.storageScheduled ≠ 0 then
            .err (.invalid ("Delete Disk on node " ++ name ++
              " error: Please disable the disk " ++ disk.path ++
              " and remove all replicas and backing images first "))
          else checkDeleteDisks newDisks diskStatus rest

/-- The disk-type immutability loop of `Update` (`validator.go:200-206`):
a disk kept under the same name may not change a non-empty type. -/
def checkTypeChange (nodeName : String) (newDisks : List (String × DiskSpec)) :
    List (String × DiskSpec) → Option AdmissionError
  | [] => none
  | (name, disk) :: rest =>
    match lookupKey name newDisks with
    | some newDisk =>
      if disk.diskType ≠ "" && disk.diskType ≠ newDisk.diskType then
        some (.invalid ("update disk on node " ++ nodeName ++ " error: The disk " ++
          name ++ "(" ++ disk.path ++ ") type is not allow to change"))
      else checkTypeChange nodeName newDisks rest
    | none => checkTypeChange nodeName newDisks rest

/-- Entry point `nodeValidator.Create` (`validator.go:48-79`). -/
def ValidateCreate (env : Env) (node : Node) : VResult :=
  if node.spec.instanceManagerCPURequest < 0 then
    .err (.invalid "instanceManagerCPURequest should be greater than or equal to 0")
  else
    match env.v2DataEngine with
    | .error msg => .err (.invalid ("failed to get spdk setting: " ++ msg))
    | .ok v2 => liftOpt (checkCreateDisks v2 node.spec.disks) .ok

/-- Entry point `nodeValidator.Update` (`validator.go:81-209`), the rule chain in
source order; the first violated rule's error is returned. -/
def ValidateUpdate (env : Env) (oldNode newNode : Node) : VResult :=
  if isRemovingLonghornFinalizer oldNode newNode then .ok
  else if newNode.spec.instanceManagerCPURequest < 0 then
    .err (.invalid "instanceManagerCPURequest should be greater than or equal to 0")
  else if nodeEvictionConflict newNode.spec then
    .err (.invalid ("need to disable scheduling on node " ++ oldNode.name ++
      " for node eviction, or cancel eviction to enable scheduling on this node"))
  else if !isNodeDiskSpecAndStatusSynced oldNode then
    .err (.forbidden ("spec and status of disks on node " ++ oldNode.name ++
      " are being syncing and please retry later."))
  else
    liftOpt ((env.validateTags newNode.spec.tags).map .invalid) <|
    liftOpt (checkCPU env newNode.spec.instanceManagerCPURequest) <|
    if newNode.spec.name = "" then
      .err (.invalid "node name is invalid. You can't have a Spec.Name empty")
    else
      liftOpt (checkDiskEviction newNode.spec.disks) <|
      match env.v2DataEngine with
      | .error msg => .err (.invalid ("failed to get spdk setting: " ++ msg))
      | .ok v2 =>
        liftOpt (checkUpdateDisks env.validateTags v2 newNode.name newNode.spec.disks) <|
        match checkDeleteDisks newNode.spec.disks oldNode.status.diskStatus oldNode.spec.disks with
        | .crash => .crash
        | .err e => .err e
        | .ok => liftOpt (checkTypeChange newNode.name newNode.spec.disks oldNode.spec.disks) .ok

/-- Modelled from the spec: `types.GetCondition` (from the `types` package,
not under the sources given) — look up a condition by type, yielding the
zero-value condition when absent (the spec notes the source conflates
"not found" with the zero value). -/
def getCondition (conds : List Condition) (t : String) : Condition :=
  match conds.find? (fun c => c.ctype = t) with
  | some c => c
  | none => ⟨"", "", ""⟩

/-- Entry point `nodeValidator.Delete` (`validator.go:225-264`). -/
def ValidateDelete (env : Env) (node : Node) : VResult :=
  if (lookupKey DeleteNodeFromLonghornKey node.annotations).isSome then .ok
  else
    match env.replicas with
    | .error msg => .err (.invalid ("failed to list replicas on node " ++ node.name ++ ": " ++ msg))
    | .ok replicas =>
      match env.engines with
      | .error msg => .err (.invalid ("failed to list engines on node " ++ node.name ++ ": " ++ msg))
      | .ok engines =>
        let condition := getCondition node.status.conditions NodeConditionTypeReady
        if condition.cstatus = ConditionStatusTrue ∨
            (condition.reason ≠ NodeConditionReasonKubernetesNodeGone ∧
             condition.reason ≠ NodeConditionReasonManagerPodMissing) ∨
            node.spec.allowScheduling ∨ replicas.length > 0 ∨ engines.length > 0 then
          .err (.invalid ("could not delete node " ++ node.name ++
            " with node ready condition is " ++ condition.cstatus ++ ", reason is " ++
            condition.reason ++ ", node schedulable " ++ toString node.spec.allowScheduling ++
            ", and " ++ toString replicas.length ++ " replica, " ++
            toString engines.length ++ " engine running on it"))
        else .ok


/-! ## Shared fixtures -/

/-- A benign environment: every external read succeeds and every
validation passes. -/
def envA : Env where
  v2DataEngine := .ok true
  kubeNode := .found ⟨4000⟩
  guaranteedCPUSetting := .ok "12"
  computePercent := fun _ _ => "10"
  validateCPUReservation := fun _ => none
  validateTags := fun _ => none
  replicas := .ok []
  engines := .ok []

/-- A benign filesystem disk. -/
def diskFS : DiskSpec :=
  { diskType := "filesystem", diskDriver := "", path := "/var/lib/longhorn"
    storageReserved := 0, tags := [], allowScheduling := false, evictionRequested := false }

/-- A benign node with one synced filesystem disk. -/
def nodeA : Node where
  name := "node-1"
  annotations := []
  deletionTimestamp := false
  finalizers := ["longhorn.io"]
  spec := { name := "node-1", disks := [("disk-1", diskFS)], allowScheduling := true
            evictionRequested := false, instanceManagerCPURequest := 0, tags := [] }
  status := { conditions := [], diskStatus := [("disk-1", ⟨0⟩)] }

example : ValidateUpdate envA nodeA nodeA = .ok := by decide
example : ValidateCreate envA nodeA = .ok := by decide

/-! ## Helper lemmas -/

theorem liftOpt_eq_ok {x : Option AdmissionError} {r : VResult}
    (h : liftOpt x r = .ok) : x = none ∧ r = .ok := by
  cases x with
  | none => exact ⟨rfl, h⟩
  | some e => exact VResult.noConfusion h

theorem liftOpt_ne_crash {x : Option AdmissionError} {r : VResult}
    (h : r ≠ .crash) : liftOpt x r ≠ .crash := by
  cases x with
  | none => exact h
  | some e => exact fun hc => VResult.noConfusion hc

theorem vresult_err_of {r : VResult} (h1 : r ≠ .ok) (h2 : r ≠ .crash) :
    ∃ e, r = .err e := by
  cases r with
  | ok => exact absurd rfl h1
  | err e => exact ⟨e, rfl⟩
  | crash => exact absurd rfl h2

/-- A pure finalizer-removal update leaves the spec untouched. -/
theorem bypass_spec_eq {oldNode newNode : Node}
    (h : isRemovingLonghornFinalizer oldNode newNode = true) :
    newNode.spec = oldNode.spec := by
  unfold isRemovingLonghornFinalizer at h
  simp only [Bool.and_eq_true, decide_eq_true_eq] at h
  rw [h.2]

/-- A pure finalizer-removal update leaves the status untouched. -/
theorem bypass_status_eq {oldNode newNode : Node}
    (h : isRemovingLonghornFinalizer oldNode newNode = true) :
    newNode.status = oldNode.status := by
  unfold isRemovingLonghornFinalizer at h
  simp only [Bool.and_eq_true, decide_eq_true_eq] at h
  rw [h.2]

/-- A synced node has a status entry for every spec disk. -/
theorem synced_status_isSome {node : Node}
    (h : isNodeDiskSpecAndStatusSynced node = true) :
    ∀ p ∈ node.spec.disks, (lookupKey p.1 node.status.diskStatus).isSome = true := by
  unfold isNodeDiskSpecAndStatusSynced at h
  simp only [Bool.and_eq_true, List.all_eq_true, decide_eq_true_eq] at h
  exact h.2

/-- The disk-removal loop cannot dereference a missing status entry when
every old spec disk has one. -/
theorem checkDeleteDisks_ne_crash (newDisks : List (String × DiskSpec))
    (diskStatus : List (String × DiskStatus)) :
    ∀ oldDisks : List (String × DiskSpec),
    (∀ p ∈ oldDisks, (lookupKey p.1 diskStatus).isSome = true) →
    checkDeleteDisks newDisks diskStatus oldDisks ≠ .crash := by
  intro oldDisks
  induction oldDisks with
  | nil => intro _ hc; exact VResult.noConfusion hc
  | cons p rest ih =>
    obtain ⟨name, disk⟩ := p
    intro hall hc
    have htail : ∀ q ∈ rest, (lookupKey q.1 diskStatus).isSome = true :=
      fun q hq => hall q (List.mem_cons_of_mem _ hq)
    have hhead : (lookupKey name diskStatus).isSome = true :=
      hall (name, disk) (List.mem_cons_self _ _)
    unfold checkDeleteDisks at hc
    split at hc
    · exact ih htail hc
    · split at hc
      · exact VResult.noConfusion hc
      · split at hc
        · rename_i hst
          rw [hst] at hhead
          exact Bool.noConfusion hhead
        · split at hc
          · exact VResult.noConfusion hc
          · exact ih htail hc


/-- The update rule chain never returns the crash marker: the disk-sync
precondition runs before the disk-removal loop. -/
theorem validateUpdate_ne_crash (env : Env) (oldNode newNode : Node) :
    ValidateUpdate env oldNode newNode ≠ .crash := by
  unfold ValidateUpdate
  split
  · exact fun h => VResult.noConfusion h
  split
  · exact fun h => VResult.noConfusion h
  split
  · exact fun h => VResult.noConfusion h
  split
  · exact fun h => VResult.noConfusion h
  rename_i hsync
  apply liftOpt_ne_crash
  apply liftOpt_ne_crash
  split
  · exact fun h => VResult.noConfusion h
  apply liftOpt_ne_crash
  split
  · exact fun h => VResult.noConfusion h
  apply liftOpt_ne_crash
  have hsynced : isNodeDiskSpecAndStatusSynced oldNode = true := by
    simpa using hsync
  have hnc := checkDeleteDisks_ne_crash newNode.spec.disks
    oldNode.status.diskStatus oldNode.spec.disks
    (synced_status_isSome hsynced)
  split
  · rename_i hd
    exact absurd hd hnc
  · exact fun h => VResult.noConfusion h
  · exact liftOpt_ne_crash (fun h => VResult.noConfusion h)

/-- Acceptance of a non-bypass update means every rule of the chain
passed; the components later claims need are returned. -/
theorem validateUpdate_eq_ok {env : Env} {oldNode newNode : Node}
    (hb : isRemovingLonghornFinalizer oldNode newNode = false)
    (h : ValidateUpdate env oldNode newNode = .ok) :
    isNodeDiskSpecAndStatusSynced oldNode = true ∧
    checkDiskEviction newNode.spec.disks = none ∧
    ∃ v2, env.v2DataEngine = .ok v2 ∧
      checkUpdateDisks env.validateTags v2 newNode.name newNode.spec.disks = none ∧
      checkDeleteDisks newNode.spec.disks oldNode.status.diskStatus oldNode.spec.disks = .ok ∧
      checkTypeChange newNode.name newNode.spec.disks oldNode.spec.disks = none := by
  unfold ValidateUpdate at h
  rw [if_neg (by simp [hb])] at h
  split at h
  · exact VResult.noConfusion h
  split at h
  · exact VResult.noConfusion h
  split at h
  · exact VResult.noConfusion h
  rename_i hsync
  obtain ⟨-, h⟩ := liftOpt_eq_ok h
  obtain ⟨-, h⟩ := liftOpt_eq_ok h
  split at h
  · exact VResult.noConfusion h
  obtain ⟨hevict, h⟩ := liftOpt_eq_ok h
  split at h
  · exact VResult.noConfusion h
  rename_i v2 hv2
  obtain ⟨hupd, h⟩ := liftOpt_eq_ok h
  split at h
  · exact VResult.noConfusion h
  · exact VResult.noConfusion h
  · rename_i hdel
    obtain ⟨htype, -⟩ := liftOpt_eq_ok h
    exact ⟨by simpa using hsync, hevict, v2, hv2, hupd, hdel, htype⟩

/-- A passing disk-eviction loop is exactly one with no conflicted disk. -/
theorem checkDiskEviction_none_iff (disks : List (String × DiskSpec)) :
    checkDiskEviction disks = none ↔ ∀ p ∈ disks, diskEvictionConflict p.2 = false := by
  induction disks with
  | nil => simp [checkDiskEviction]
  | cons p rest ih =>
    obtain ⟨name, d⟩ := p
    unfold checkDiskEviction
    by_cases hc : diskEvictionConflict d = true
    · rw [if_pos hc]
      constructor
      · intro h; exact Option.noConfusion h
      · intro h
        have hd := h (name, d) (List.mem_cons_self _ _)
        rw [hc] at hd
        exact Bool.noConfusion hd
    · rw [if_neg hc, ih]
      rw [Bool.not_eq_true] at hc
      constructor
      · intro h q hq
        rcases List.mem_cons.1 hq with he | hm
        · rw [he]; exact hc
        · exact h q hm
      · intro h q hq
        exact h q (List.mem_cons_of_mem _ hq)

/-- A conflicted disk reachable by lookup makes the eviction loop fail. -/
theorem checkDiskEviction_conflict {disks : List (String × DiskSpec)} {name : String}
    {d : DiskSpec} (hl : lookupKey name disks = some d)
    (hc : diskEvictionConflict d = true) : checkDiskEviction disks ≠ none := by
  intro h
  induction disks with
  | nil => exact Option.noConfusion hl
  | cons p rest ih =>
    obtain ⟨k, dk⟩ := p
    unfold checkDiskEviction at h
    split at h
    · exact Option.noConfusion h
    · rename_i hk
      unfold lookupKey at hl
      split at hl
      · injection hl with he
        rw [he] at hk
        exact hk hc
      · exact ih hl h

/-- A passing create-disk loop with the v2 engine disabled contains no
block-type disk. -/
theorem checkCreateDisks_none_no_block {disks : List (String × DiskSpec)}
    (h : checkCreateDisks false disks = none) :
    ∀ name d, lookupKey name disks = some d → d.diskType ≠ DiskTypeBlock := by
  induction disks with
  | nil => intro name d hl; exact Option.noConfusion hl
  | cons p rest ih =>
    obtain ⟨k, dk⟩ := p
    intro name d hl
    unfold checkCreateDisks at h
    split at h
    · exact Option.noConfusion h
    split at h
    · exact Option.noConfusion h
    rename_i hblock hdriver
    unfold lookupKey at hl
    split at hl
    · injection hl with he
      rw [← he]
      simpa using hblock
    · exact ih h name d hl

/-- A passing update-disk loop with the v2 engine disabled contains no
block-type disk. -/
theorem checkUpdateDisks_none_no_block {vt : List String → Option String}
    {nodeName : String} {disks : List (String × DiskSpec)}
    (h : checkUpdateDisks vt false nodeName disks = none) :
    ∀ name d, lookupKey name disks = some d → d.diskType ≠ DiskTypeBlock := by
  induction disks with
  | nil => intro name d hl; exact Option.noConfusion hl
  | cons p rest ih =>
    obtain ⟨k, dk⟩ := p
    intro name d hl
    unfold checkUpdateDisks at h
    split at h
    · exact Option.noConfusion h
    split at h
    · exact Option.noConfusion h
    split at h
    · exact Option.noConfusion h
    split at h
    · exact Option.noConfusion h
    rename_i hres htags hblock hdriver
    unfold lookupKey at hl
    split at hl
    · injection hl with he
      rw [← he]
      simpa using hblock
    · exact ih h name d hl

/-- A passing type-change loop never pairs a kept disk with a changed
non-empty type. -/
theorem checkTypeChange_none {nodeName : String}
    {newDisks : List (String × DiskSpec)} :
    ∀ {oldDisks : List (String × DiskSpec)},
    checkTypeChange nodeName newDisks oldDisks = none →
    ∀ name d d', lookupKey name oldDisks = some d →
      lookupKey name newDisks = some d' →
      d.diskType = "" ∨ d.diskType = d'.diskType := by
  intro oldDisks
  induction oldDisks with
  | nil => intro _ name d d' hl; exact Option.noConfusion hl
  | cons p rest ih =>
    obtain ⟨k, dk⟩ := p
    intro h name d d' hl hl'
    unfold checkTypeChange at h
    split at h
    · rename_i newDisk hk
      split at h
      · exact Option.noConfusion h
      · rename_i hcond
        unfold lookupKey at hl
        split at hl
        · rename_i hnk
          injection hl with he
          rw [hnk] at hl'
          rw [hk] at hl'
          injection hl' with he'
          rw [← he, ← he']
          rw [Bool.not_eq_true, Bool.and_eq_false_iff] at hcond
          rcases hcond with hc | hc
          · left
            simpa using hc
          · right
            simpa using hc
        · exact ih h name d d' hl hl'
    · rename_i hk
      unfold lookupKey at hl
      split at hl
      · rename_i hnk
        rw [hnk, hk] at hl'
        exact Option.noConfusion hl'
      · exact ih h name d d' hl hl'

/-- A succeeding disk-removal loop means every removed disk was
unschedulable with zero scheduled storage. -/
theorem checkDeleteDisks_eq_ok {newDisks : List (String × DiskSpec)}
    {diskStatus : List (String × DiskStatus)} :
    ∀ {oldDisks : List (String × DiskSpec)},
    checkDeleteDisks newDisks diskStatus oldDisks = .ok →
    ∀ name d st, lookupKey name oldDisks = some d →
      lookupKey name newDisks = none → lookupKey name diskStatus = some st →
      d.allowScheduling = false ∧ st.storageScheduled = 0 := by
  intro oldDisks
  induction oldDisks with
  | nil => intro _ name d st hl; exact Option.noConfusion hl
  | cons p rest ih =>
    obtain ⟨k, dk⟩ := p
    intro h name d st hl hnew hst
    unfold checkDeleteDisks at h
    split at h
    · rename_i v hk
      unfold lookupKey at hl
      split at hl
      · rename_i hnk
        rw [hnk, hk] at hnew
        exact Option.noConfusion hnew
      · exact ih h name d st hl hnew hst
    · rename_i hk
      split at h
      · exact VResult.noConfusion h
      rename_i hs
      split at h
      · exact VResult.noConfusion h
      rename_i st' hst'
      split at h
      · exact VResult.noConfusion h
      rename_i hz
      unfold lookupKey at hl
      split at hl
      · rename_i hnk
        injection hl with he
        rw [hnk, hst'] at hst
        injection hst with he'
        constructor
        · rw [← he]
          exact Bool.eq_false_iff.mpr hs
        · rw [← he']
          exact not_not.mp hz
      · exact ih h name d st hl hnew hst

/-! ## Claim theorems -/

/-- C2: an update that is not a pure finalizer removal and passes the CPU
and node-level eviction checks is rejected with the Forbidden (retryable)
category, not the Invalid one, when the old node's disk specs and disk
statuses are out of sync. -/
theorem C2_unsynced_rejects_forbidden (env : Env) (oldNode newNode : Node)
    (hb : isRemovingLonghornFinalizer oldNode newNode = false)
    (hcpu : 0 ≤ newNode.spec.instanceManagerCPURequest)
    (hev : nodeEvictionConflict newNode.spec = false)
    (hsync : isNodeDiskSpecAndStatusSynced oldNode = false) :
    ∃ msg, ValidateUpdate env oldNode newNode = .err (.forbidden msg) := by
  have h : ValidateUpdate env oldNode newNode = .err (.forbidden
      ("spec and status of disks on node " ++ oldNode.name ++
        " are being syncing and please retry later.")) := by
    unfold ValidateUpdate
    rw [if_neg (by simp [hb]), if_neg (by omega), if_neg (by simp [hev]),
      if_pos (by simp [hsync])]
  exact ⟨_, h⟩

/-- An old node whose single spec disk has no status entry (spec and
status out of sync). -/
def nodeUnsynced : Node where
  name := "node-1"
  annotations := []
  deletionTimestamp := false
  finalizers := ["longhorn.io"]
  spec := { name := "node-1", disks := [("disk-1", diskFS)], allowScheduling := true
            evictionRequested := false, instanceManagerCPURequest := 0, tags := [] }
  status := { conditions := [], diskStatus := [] }

theorem C2_witness :
    ∃ msg, ValidateUpdate envA nodeUnsynced nodeA = .err (.forbidden msg) :=
  C2_unsynced_rejects_forbidden envA nodeUnsynced nodeA (by decide) (by decide)
    (by decide) (by decide)

/-- C3: an update whose only semantic difference is removal of the
longhorn.io finalizer from an object under deletion is accepted, whatever
other invariant violations either object carries. -/
theorem C3_finalizer_removal_accepts (env : Env) (oldNode newNode : Node)
    (h : isRemovingLonghornFinalizer oldNode newNode = true) :
    ValidateUpdate env oldNode newNode = .ok := by
  unfold ValidateUpdate
  rw [if_pos h]

/-- A node under deletion violating several invariants at once: negative
CPU request, eviction requested while schedulable, disks out of sync. -/
def nodeViolating : Node where
  name := "node-1"
  annotations := []
  deletionTimestamp := true
  finalizers := ["longhorn.io"]
  spec := { name := "", disks := [("disk-1", diskFS)], allowScheduling := true
            evictionRequested := true, instanceManagerCPURequest := -5, tags := [] }
  status := { conditions := [], diskStatus := [] }

theorem C3_witness :
    ValidateUpdate envA nodeViolating { nodeViolating with finalizers := [] } = .ok :=
  C3_finalizer_removal_accepts envA nodeViolating
    { nodeViolating with finalizers := [] } (by decide)

/-- C5: a delete of a node carrying the uninstall marker annotation is
accepted unconditionally, whatever the env's listings would answer. -/
theorem C5_uninstall_marker_accepts (env : Env) (node : Node) (v : String)
    (h : lookupKey DeleteNodeFromLonghornKey node.annotations = some v) :
    ValidateDelete env node = .ok := by
  unfold ValidateDelete
  rw [if_pos (by rw [h]; rfl)]

/-- An environment whose replica and engine listings both fail. -/
def envListingsFail : Env :=
  { envA with replicas := .error "boom", engines := .error "boom" }

/-- A node violating all five deletion preconditions while carrying the
uninstall marker annotation. -/
def nodeUninstalling : Node where
  name := "node-1"
  annotations := [(DeleteNodeFromLonghornKey, "true")]
  deletionTimestamp := false
  finalizers := ["longhorn.io"]
  spec := { name := "node-1", disks := [], allowScheduling := true
            evictionRequested := false, instanceManagerCPURequest := 0, tags := [] }
  status := { conditions := [⟨NodeConditionTypeReady, ConditionStatusTrue, "SomeReason"⟩]
              diskStatus := [] }

theorem C5_witness : ValidateDelete envListingsFail nodeUninstalling = .ok :=
  C5_uninstall_marker_accepts envListingsFail nodeUninstalling "true" (by decide)

/-- C8: the disk-removal rule's status lookup cannot hit an absent entry.
The disk-sync precondition, which runs earlier, guarantees a status entry
for every old spec disk, so no run of the update chain reaches the nil
dereference. -/
theorem C8_no_nil_deref (env : Env) (oldNode newNode : Node) :
    (isNodeDiskSpecAndStatusSynced oldNode = true →
      ∀ p ∈ oldNode.spec.disks,
        (lookupKey p.1 oldNode.status.diskStatus).isSome = true) ∧
    ValidateUpdate env oldNode newNode ≠ .crash :=
  ⟨fun hs => synced_status_isSome hs, validateUpdate_ne_crash env oldNode newNode⟩

theorem C8_witness : ValidateUpdate envA nodeUnsynced nodeA ≠ .crash :=
  (C8_no_nil_deref envA nodeUnsynced nodeA).2

/-- C4: with no uninstall marker and successful replica and engine
listings, a delete is accepted exactly when the readiness condition is
not True, its reason names a gone compute node or a missing manager pod,
scheduling is disabled, and no replica or engine is bound. -/
theorem C4_delete_accept_iff (env : Env) (node : Node)
    (replicas engines : List String)
    (ha : lookupKey DeleteNodeFromLonghornKey node.annotations = none)
    (hr : env.replicas = .ok replicas) (he : env.engines = .ok engines) :
    ValidateDelete env node = .ok ↔
      ((getCondition node.status.conditions NodeConditionTypeReady).cstatus ≠
          ConditionStatusTrue ∧
        ((getCondition node.status.conditions NodeConditionTypeReady).reason =
            NodeConditionReasonKubernetesNodeGone ∨
          (getCondition node.status.conditions NodeConditionTypeReady).reason =
            NodeConditionReasonManagerPodMissing) ∧
        node.spec.allowScheduling = false ∧
        replicas.length = 0 ∧ engines.length = 0) := by
  unfold ValidateDelete
  rw [if_neg (by rw [ha]; simp)]
  rw [hr, he]
  simp only []
  split
  · rename_i hcond
    constructor
    · intro h
      exact VResult.noConfusion h
    · rintro ⟨hc1, hc2, hc3, hc4, hc5⟩
      exfalso
      rcases hcond with h | h | h | h | h
      · exact hc1 h
      · rcases hc2 with h2 | h2
        · exact h.1 h2
        · exact h.2 h2
      · rw [hc3] at h
        exact Bool.noConfusion h
      · omega
      · omega
  · rename_i hcond
    push_neg at hcond
    obtain ⟨h1, h2, h3, h4, h5⟩ := hcond
    constructor
    · intro _
      refine ⟨h1, ?_, ?_, by omega, by omega⟩
      · by_cases hg : (getCondition node.status.conditions NodeConditionTypeReady).reason =
            NodeConditionReasonKubernetesNodeGone
        · exact Or.inl hg
        · exact Or.inr (h2 hg)
      · exact Bool.eq_false_iff.mpr h3
    · intro _
      rfl

/-- A node satisfying all five deletion preconditions. -/
def nodeDeletable : Node where
  name := "node-1"
  annotations := []
  deletionTimestamp := false
  finalizers := ["longhorn.io"]
  spec := { name := "node-1", disks := [], allowScheduling := false
            evictionRequested := false, instanceManagerCPURequest := 0, tags := [] }
  status := { conditions :=
                [⟨NodeConditionTypeReady, "False", NodeConditionReasonKubernetesNodeGone⟩]
              diskStatus := [] }

theorem C4_witness : ValidateDelete envA nodeDeletable = .ok :=
  (C4_delete_accept_iff envA nodeDeletable [] [] (by decide) (by rfl) (by rfl)).mpr
    (by refine ⟨by decide, by decide, by decide, rfl, rfl⟩)

/-- C6: a disk kept under the same name across an update cannot change a
non-empty type; any update attempting it is rejected, so every accepted
update preserves the retained disk's type. -/
theorem C6_disk_type_immutable (env : Env) (oldNode newNode : Node)
    (name : String) (dOld dNew : DiskSpec)
    (h1 : lookupKey name oldNode.spec.disks = some dOld)
    (h2 : lookupKey name newNode.spec.disks = some dNew)
    (h3 : dOld.diskType ≠ "") (h4 : dOld.diskType ≠ dNew.diskType) :
    ∃ e, ValidateUpdate env oldNode newNode = .err e := by
  apply vresult_err_of
  · intro hok
    by_cases hb : isRemovingLonghornFinalizer oldNode newNode = true
    · have hspec := bypass_spec_eq hb
      rw [hspec, h1] at h2
      injection h2 with he
      exact h4 (congrArg DiskSpec.diskType he)
    · have hb' : isRemovingLonghornFinalizer oldNode newNode = false := by
        simpa using hb
      obtain ⟨-, -, v2, -, -, -, htype⟩ := validateUpdate_eq_ok hb' hok
      rcases checkTypeChange_none htype name dOld dNew h1 h2 with hc | hc
      · exact h3 hc
      · exact h4 hc
  · exact validateUpdate_ne_crash env oldNode newNode

/-- The block-device variant of the benign filesystem disk. -/
def diskBlock : DiskSpec :=
  { diskType := "block", diskDriver := "", path := "/dev/sdb"
    storageReserved := 0, tags := [], allowScheduling := false
    evictionRequested := false }

/-- The benign node with its disk turned into a block-device disk. -/
def nodeTypeChanged : Node :=
  { nodeA with spec := { nodeA.spec with disks := [("disk-1", diskBlock)] } }

theorem C6_witness : ∃ e, ValidateUpdate envA nodeA nodeTypeChanged = .err e :=
  C6_disk_type_immutable envA nodeA nodeTypeChanged "disk-1" diskFS diskBlock
    (by decide) (by decide) (by decide) (by decide)

/-- C7: with the old node synced and a disk present in the old spec but
absent from the new one, the update is rejected when the disk was
schedulable or still had scheduled storage, and the safe-removal rule
accepts the removal of that disk otherwise. -/
theorem C7_safe_disk_removal (env : Env) (oldNode newNode : Node)
    (name : String) (d : DiskSpec) (st : DiskStatus)
    (hsync : isNodeDiskSpecAndStatusSynced oldNode = true)
    (h1 : lookupKey name oldNode.spec.disks = some d)
    (h2 : lookupKey name newNode.spec.disks = none)
    (h3 : lookupKey name oldNode.status.diskStatus = some st) :
    ((d.allowScheduling = true ∨ st.storageScheduled ≠ 0) →
      ∃ e, ValidateUpdate env oldNode newNode = .err e) ∧
    (d.allowScheduling = false ∧ st.storageScheduled = 0 →
      checkDeleteDisks newNode.spec.disks oldNode.status.diskStatus [(name, d)] = .ok) := by
  constructor
  · intro hunsafe
    apply vresult_err_of
    · intro hok
      by_cases hb : isRemovingLonghornFinalizer oldNode newNode = true
      · have hspec := bypass_spec_eq hb
        rw [hspec, h1] at h2
        exact Option.noConfusion h2
      · have hb' : isRemovingLonghornFinalizer oldNode newNode = false := by
          simpa using hb
        obtain ⟨-, -, v2, -, -, hdel, -⟩ := validateUpdate_eq_ok hb' hok
        obtain ⟨hsched, hzero⟩ := checkDeleteDisks_eq_ok hdel name d st h1 h2 h3
        rcases hunsafe with hu | hu
        · rw [hsched] at hu
          exact Bool.noConfusion hu
        · exact hu hzero
    · exact validateUpdate_ne_crash env oldNode newNode
  · rintro ⟨hsched, hzero⟩
    unfold checkDeleteDisks
    simp [h2, h3, hsched, hzero, checkDeleteDisks]

/-- The old node for disk removal: its disk is still schedulable. -/
def nodeRemovalOld : Node :=
  { nodeA with
    spec := { nodeA.spec with
      disks := [("disk-1", { diskFS with allowScheduling := true })] } }

/-- The new node with the disk dropped from the spec. -/
def nodeRemovalNew : Node :=
  { nodeA with spec := { nodeA.spec with disks := [] } }

theorem C7_witness : ∃ e, ValidateUpdate envA nodeRemovalOld nodeRemovalNew = .err e :=
  (C7_safe_disk_removal envA nodeRemovalOld nodeRemovalNew "disk-1"
    { diskFS with allowScheduling := true } ⟨0⟩
    (by decide) (by decide) (by decide) (by decide)).1 (Or.inl (by decide))

/-- C9: for a non-bypass update, a node or disk with eviction requested
and scheduling allowed simultaneously is rejected, and clearing either
field of the offending pair makes that pair pass its check. -/
theorem C9_eviction_scheduling_exclusion (env : Env) (oldNode newNode : Node)
    (hb : isRemovingLonghornFinalizer oldNode newNode = false) :
    (nodeEvictionConflict newNode.spec = true →
      ∃ msg, ValidateUpdate env oldNode newNode = .err (.invalid msg)) ∧
    (∀ name d, lookupKey name newNode.spec.disks = some d →
      diskEvictionConflict d = true →
      ∃ e, ValidateUpdate env oldNode newNode = .err e) ∧
    (∀ sp : NodeSpec,
      nodeEvictionConflict { sp with evictionRequested := false } = false ∧
      nodeEvictionConflict { sp with allowScheduling := false } = false) ∧
    (∀ d : DiskSpec,
      diskEvictionConflict { d with evictionRequested := false } = false ∧
      diskEvictionConflict { d with allowScheduling := false } = false) := by
  refine ⟨?_, ?_, ?_, ?_⟩
  · intro hc
    by_cases hcpu : newNode.spec.instanceManagerCPURequest < 0
    · have h : ValidateUpdate env oldNode newNode =
          .err (.invalid "instanceManagerCPURequest should be greater than or equal to 0") := by
        unfold ValidateUpdate
        rw [if_neg (by simp [hb]), if_pos hcpu]
      exact ⟨_, h⟩
    · have h : ValidateUpdate env oldNode newNode = .err (.invalid
          ("need to disable scheduling on node " ++ oldNode.name ++
            " for node eviction, or cancel eviction to enable scheduling on this node")) := by
        unfold ValidateUpdate
        rw [if_neg (by simp [hb]), if_neg hcpu, if_pos hc]
      exact ⟨_, h⟩
  · intro name d hl hc
    apply vresult_err_of
    · intro hok
      obtain ⟨-, hevict, -⟩ := validateUpdate_eq_ok hb hok
      exact checkDiskEviction_conflict hl hc hevict
    · exact validateUpdate_ne_crash env oldNode newNode
  · intro sp
    constructor
    · simp [nodeEvictionConflict]
    · simp [nodeEvictionConflict]
  · intro d
    constructor
    · simp [diskEvictionConflict]
    · simp [diskEvictionConflict]

/-- The benign node with node-level eviction requested while scheduling
stays allowed. -/
def nodeConflicted : Node :=
  { nodeA with spec := { nodeA.spec with evictionRequested := true, allowScheduling := true } }

theorem C9_witness : ∃ msg, ValidateUpdate envA nodeA nodeConflicted = .err (.invalid msg) :=
  (C9_eviction_scheduling_exclusion envA nodeA nodeConflicted (by decide)).1 (by decide)

/-- C10: on Create and on Update, a block-type disk is rejected whenever
the v2 data engine setting is disabled, and the block-type rule passes
when the setting is enabled. -/
theorem C10_block_disk_requires_v2 :
    (∀ (env : Env) (node : Node) (name : String) (d : DiskSpec),
      env.v2DataEngine = .ok false →
      lookupKey name node.spec.disks = some d → d.diskType = DiskTypeBlock →
      ∃ e, ValidateCreate env node = .err e) ∧
    (∀ (name : String) (d : DiskSpec), d.diskType = DiskTypeBlock →
      checkCreateDisks true [(name, d)] = none) ∧
    (∀ (env : Env) (oldNode newNode : Node) (name : String) (d : DiskSpec),
      isRemovingLonghornFinalizer oldNode newNode = false →
      env.v2DataEngine = .ok false →
      lookupKey name newNode.spec.disks = some d → d.diskType = DiskTypeBlock →
      ∃ e, ValidateUpdate env oldNode newNode = .err e) ∧
    (∀ (vt : List String → Option String) (nodeName name : String) (d : DiskSpec),
      d.diskType = DiskTypeBlock → 0 ≤ d.storageReserved → vt d.tags = none →
      checkUpdateDisks vt true nodeName [(name, d)] = none) := by
  refine ⟨?_, ?_, ?_, ?_⟩
  · intro env node name d hv2 hl hblock
    by_cases hcpu : node.spec.instanceManagerCPURequest < 0
    · have h : ValidateCreate env node =
          .err (.invalid "instanceManagerCPURequest should be greater than or equal to 0") := by
        unfold ValidateCreate
        rw [if_pos hcpu]
      exact ⟨_, h⟩
    · cases hcd : checkCreateDisks false node.spec.disks with
      | none => exact absurd hblock (checkCreateDisks_none_no_block hcd name d hl)
      | some e =>
        have h : ValidateCreate env node = .err e := by
          unfold ValidateCreate
          rw [if_neg hcpu]
          simp [hv2, hcd, liftOpt]
        exact ⟨e, h⟩
  · intro name d hblock
    simp [checkCreateDisks, hblock, DiskTypeBlock]
  · intro env oldNode newNode name d hb hv2 hl hblock
    apply vresult_err_of
    · intro hok
      obtain ⟨-, -, v2, hv2', hupd, -, -⟩ := validateUpdate_eq_ok hb hok
      rw [hv2] at hv2'
      injection hv2' with hv
      rw [← hv] at hupd
      exact absurd hblock (checkUpdateDisks_none_no_block hupd name d hl)
    · exact validateUpdate_ne_crash env oldNode newNode
  · intro vt nodeName name d hblock hres htags
    have hres' : ¬(d.storageReserved < 0) := by omega
    simp [checkUpdateDisks, hres', htags, hblock, DiskTypeBlock]

/-- An environment in which the v2 data engine setting is disabled. -/
def envNoV2 : Env := { envA with v2DataEngine := .ok false }

/-- The benign node carrying one block-device disk. -/
def nodeWithBlockDisk : Node :=
  { nodeA with spec := { nodeA.spec with disks := [("disk-1", diskBlock)] } }

theorem C10_witness : ∃ e, ValidateCreate envNoV2 nodeWithBlockDisk = .err e :=
  C10_block_disk_requires_v2.1 envNoV2 nodeWithBlockDisk "disk-1" diskBlock
    (by rfl) (by decide) (by decide)

/-- The CPU reservation bound check as the claim words it, written for
comparison with `checkCPU`: on a not-found read of the compute node, the
rule is said to continue with a default-percentage computation path,
validating the guaranteed-CPU setting's value against its accepted
range instead of returning an error. -/
def checkCPUClaimed (env : Env) (cpuRequest : Int) : Option AdmissionError :=
  if cpuRequest ≠ 0 then
    match env.kubeNode with
    | .readErr msg => some (.invalid msg)
    | .notFound _ =>
      match env.guaranteedCPUSetting with
      | .error msg => some (.invalid msg)
      | .ok settingValue =>
        match env.validateCPUReservation settingValue with
        | some msg => some (.invalid msg)
        | none => none
    | .found kubeNode =>
      match env.guaranteedCPUSetting with
      | .error msg => some (.invalid msg)
      | .ok settingValue =>
        let pct := if cpuRequest > 0 then
            env.computePercent cpuRequest kubeNode.allocatableMilliCPU
          else settingValue
        match env.validateCPUReservation pct with
        | some msg => some (.invalid msg)
        | none => none
  else none

/-- An environment where the compute node is gone and the guaranteed-CPU
setting's value (101) lies outside the accepted percentage range. -/
def envNodeGone : Env where
  v2DataEngine := .ok true
  kubeNode := .notFound "node-1 not found"
  guaranteedCPUSetting := .ok "101"
  computePercent := fun _ _ => "50"
  validateCPUReservation := fun s =>
    if s = "101" then some "percentage 101 out of range" else none
  validateTags := fun _ => none
  replicas := .ok []
  engines := .ok []

/-- The benign node requesting 200 millicores for the instance manager. -/
def nodeCPURequest : Node :=
  { nodeA with spec := { nodeA.spec with instanceManagerCPURequest := 200 } }

/-- C1 (counterexample): with a nonzero CPU request and the compute node
gone, the code accepts the update without validating any percentage,
while the claimed default-percentage path would reject the out-of-range
setting value. -/
theorem C1_counterexample :
    ValidateUpdate envNodeGone nodeCPURequest nodeCPURequest = .ok ∧
    checkCPU envNodeGone nodeCPURequest.spec.instanceManagerCPURequest = none ∧
    checkCPUClaimed envNodeGone nodeCPURequest.spec.instanceManagerCPURequest =
      some (.invalid "percentage 101 out of range") :=
  ⟨by decide, by decide, by decide⟩

/-- C1 (amended): with a nonzero CPU request, a not-found read of the
compute node downgrades the failure to a warning and skips the CPU
reservation bound check entirely: the check contributes no error, and the
update result does not consult the guaranteed-CPU setting or the
percentage validation at all. -/
theorem C1_amended_notfound_skips_check (env : Env) (oldNode newNode : Node)
    (m : String) (hreq : newNode.spec.instanceManagerCPURequest ≠ 0)
    (hk : env.kubeNode = .notFound m) :
    checkCPU env newNode.spec.instanceManagerCPURequest = none ∧
    ∀ s f, ValidateUpdate
        { env with guaranteedCPUSetting := s, validateCPUReservation := f }
        oldNode newNode = ValidateUpdate env oldNode newNode := by
  have hnone : ∀ (env' : Env), env'.kubeNode = .notFound m →
      ∀ req : Int, checkCPU env' req = none := by
    intro env' hk' req
    unfold checkCPU
    rw [hk']
    split
    · rfl
    · rfl
  constructor
  · exact hnone env hk _
  · intro s f
    unfold ValidateUpdate
    rw [hnone { env with guaranteedCPUSetting := s, validateCPUReservation := f } hk _,
      hnone env hk _]

theorem C1_witness :
    checkCPU envNodeGone nodeCPURequest.spec.instanceManagerCPURequest = none ∧
    ∀ s f, ValidateUpdate
        { envNodeGone with guaranteedCPUSetting := s, validateCPUReservation := f }
        nodeCPURequest nodeCPURequest =
      ValidateUpdate envNodeGone nodeCPURequest nodeCPURequest :=
  C1_amended_notfound_skips_check envNodeGone nodeCPURequest nodeCPURequest
    "node-1 not found" (by decide) (by rfl)

end LonghornNodeValidator
